import Mathlib

/-!
Shallow embedding of the `spk-stake` staking contract (`src/lib.rs`).

Modelling conventions:
* `u128` values are `Nat` with explicit `< 2^128` overflow checks; `u8`
  values are `Nat` with `< 2^8` checks; `i64` timestamps are `Int` with
  explicit range checks on subtraction.  Rust arithmetic under the NEAR
  contract profile (`overflow-checks = true`) traps on overflow/underflow;
  a trap aborts the whole call with no state change, which we model as
  `Except.error PanicKind.overflow` (no new state is produced).
* `require!(cond, msg)` aborting is `Except.error (PanicKind.require msg)`.
* `near_sdk::collections::LookupMap` is an association list; crucially,
  `LookupMap::get` returns an owned deserialized copy, so mutating that
  copy without a subsequent `insert` does not change the stored record.
  The source mutates such copies in `stake_token` (existing-record branch),
  `unstake_token`, `claim_reward` and `update_apr` and never inserts them
  back; only the arithmetic performed on the copy (which can trap) is
  observable.  The embedding keeps exactly those arithmetic steps.
* Outbound cross-contract calls (`ft_transfer`, `ft_transfer_call`,
  `ft_resolve_transfer`) are recorded as a list of `Effect`s returned by
  the operation.
* `Utc::now().timestamp()` is passed in as an explicit `now : Int`
  parameter; `env::current_account_id()` / `env::signer_account_id()` as
  explicit `cur` / `signer` parameters; the attached deposit checked by
  `assert_one_yocto` as an explicit `deposit : Nat` parameter.
-/

deriving instance DecidableEq for Except

namespace SpkStake

abbrev AccountId := String

/-- `u128` overflow bound. -/
def U128_SIZE : Nat := 2 ^ 128

/-- `u8` overflow bound (the `votes` field). -/
def U8_SIZE : Nat := 2 ^ 8

/-- `pub const POINT_ONE_TOKEN: u128 = 100_000_000_000_000_000_000_000;` -/
def POINT_ONE_TOKEN : Nat := 100000000000000000000000

/-- `pub const ONE_TOKEN: u128 = 1_000_000_000_000_000_000_000_000;` -/
def ONE_TOKEN : Nat := 1000000000000000000000000

/-- `pub const DEFAULT_APR: u128 = 5_000_000_000_000_000_000_000_000; // 5%` -/
def DEFAULT_APR : Nat := 5000000000000000000000000

/-- Rust panic kinds relevant here: a failed `require!`/`assert_one_yocto`
with its message, or an arithmetic overflow/underflow trap. -/
inductive PanicKind where
  | require (msg : String)
  | overflow
deriving Repr, DecidableEq

/-- `struct StakeInfo` from `src/lib.rs`. -/
structure StakeInfo where
  time_staked : Int
  amount_staked : Nat
  reward : Nat
  apr : Nat
  votes : Nat
deriving Repr, DecidableEq

/-- `struct Contract` from `src/lib.rs`; the `LookupMap` is an association
list keyed by account id. -/
structure Contract where
  total_stakers : Nat
  total_staked : Nat
  stake_info : List (AccountId × StakeInfo)
  token_address : AccountId
deriving Repr, DecidableEq

/-- `LookupMap::get`. -/
def lookup : List (AccountId × StakeInfo) → AccountId → Option StakeInfo
  | [], _ => none
  | (k, v) :: rest, a => if k = a then some v else lookup rest a

/-- `LookupMap::insert` (replaces an existing binding). -/
def insertRec : List (AccountId × StakeInfo) → AccountId → StakeInfo →
    List (AccountId × StakeInfo)
  | [], a, v => [(a, v)]
  | (k, w) :: rest, a, v =>
      if k = a then (a, v) :: rest else (k, w) :: insertRec rest a v

/-- Checked `u128` addition (`+=` traps on overflow). -/
def checkedAdd (a b : Nat) : Except PanicKind Nat :=
  if a + b < U128_SIZE then .ok (a + b) else .error .overflow

/-- Checked unsigned subtraction (`-=` traps on underflow); the same check
serves `u128` and `u8`. -/
def checkedSub (a b : Nat) : Except PanicKind Nat :=
  if b ≤ a then .ok (a - b) else .error .overflow

/-- Checked `u128` multiplication (`*` traps on overflow). -/
def checkedMul (a b : Nat) : Except PanicKind Nat :=
  if a * b < U128_SIZE then .ok (a * b) else .error .overflow

/-- Checked `u8` addition. -/
def checkedAddU8 (a b : Nat) : Except PanicKind Nat :=
  if a + b < U8_SIZE then .ok (a + b) else .error .overflow

/-- Checked `i64` subtraction (`Utc::now().timestamp().sub(time_staked)`). -/
def i64Sub (a b : Int) : Except PanicKind Int :=
  if -(2 ^ 63) ≤ a - b ∧ a - b < 2 ^ 63 then .ok (a - b) else .error .overflow

/-- The cast `time_last as u128` on an `i64` value: sign-extend and
reinterpret, i.e. reduce modulo `2^128` (a negative `i64` becomes a huge
`u128`). -/
def i64AsU128 (x : Int) : Nat := (x % (2 ^ 128 : Int)).toNat

/-- Outbound cross-contract call intents issued by an operation. -/
inductive Effect where
  | ftTransfer (receiver : AccountId) (amount : Nat)
  | ftTransferCall (receiver : AccountId) (amount : Nat) (msg : String)
  | ftResolveTransfer (sender : AccountId) (receiver : AccountId) (amount : Nat)
deriving Repr, DecidableEq

/-- `assert_one_yocto`'s panic message (from `near_sdk`). -/
def ONE_YOCTO_MSG : String := "Requires attached deposit of exactly 1 yoctoNEAR"

/-- `pub fn pending_reward(&self, _account_id: AccountId) -> u128`
(src/lib.rs:157-168).  Reads the stored record; computes
`time_last = now - time_staked` (checked `i64` subtraction), then
`(amount_staked * (time_last as u128) * apr) / (31536000 * ONE_TOKEN * 100)`
with checked `u128` multiplications, and adds `reward`. -/
def pending_reward (c : Contract) (account : AccountId) (now : Int) :
    Except PanicKind Nat :=
  match lookup c.stake_info account with
  | none => .error (.require "Stake: You didn't stake any tokens!")
  | some si =>
    match i64Sub now si.time_staked with
    | .error e => .error e
    | .ok time_last =>
      match checkedMul si.amount_staked (i64AsU128 time_last) with
      | .error e => .error e
      | .ok p1 =>
        match checkedMul p1 si.apr with
        | .error e => .error e
        | .ok p2 =>
          checkedAdd (p2 / (31536000 * ONE_TOKEN * 100)) si.reward

/-- `pub fn get_staked_amount(&self, _advisor_id: AccountId) -> u128`
(src/lib.rs:170-176). -/
def get_staked_amount (c : Contract) (advisor : AccountId) :
    Except PanicKind Nat :=
  match lookup c.stake_info advisor with
  | none => .error (.require "Stake: Advisor not stake any tokens!")
  | some si => .ok si.amount_staked

/-- `pub fn stake_token(&mut self, ...)` (src/lib.rs:69-110).
`assert_one_yocto`; `require!(_stake_amount > 0)`; on an existing record the
source mutates a local copy (`time_staked = now`, `amount_staked += amount`,
`reward += pending_reward(self, account)` — `pending_reward` reads the
still-unmodified store) and never inserts it back, so only the trapping
arithmetic is kept; on a fresh account it inserts a new record and bumps
`total_stakers`.  Both paths then do `total_staked += amount` and issue
`ft_transfer_call` chained with `ft_resolve_transfer`. -/
def stake_token (c : Contract) (deposit : Nat) (cur signer : AccountId)
    (account : AccountId) (stake_amount : Nat) (now : Int) :
    Except PanicKind (Contract × List Effect) :=
  if deposit = 1 then
    if stake_amount > 0 then
      match lookup c.stake_info account with
      | some info =>
        match checkedAdd info.amount_staked stake_amount with
        | .error e => .error e
        | .ok _ =>
          match pending_reward c account now with
          | .error e => .error e
          | .ok pr =>
            match checkedAdd info.reward pr with
            | .error e => .error e
            | .ok _ =>
              match checkedAdd c.total_staked stake_amount with
              | .error e => .error e
              | .ok staked =>
                .ok ({ c with total_staked := staked },
                     [.ftTransferCall cur stake_amount "spk_stake",
                      .ftResolveTransfer signer cur stake_amount])
      | none =>
        match checkedAdd c.total_stakers 1 with
        | .error e => .error e
        | .ok stakers =>
          match checkedAdd c.total_staked stake_amount with
          | .error e => .error e
          | .ok staked =>
            .ok ({ c with
                    stake_info := insertRec c.stake_info account
                      { time_staked := now, amount_staked := stake_amount,
                        reward := 0, apr := DEFAULT_APR, votes := 0 },
                    total_stakers := stakers,
                    total_staked := staked },
                 [.ftTransferCall cur stake_amount "spk_stake",
                  .ftResolveTransfer signer cur stake_amount])
    else .error (.require "Stake: Invalid amount!")
  else .error (.require ONE_YOCTO_MSG)

/-- `pub fn unstake_token(&mut self, ...)` (src/lib.rs:112-135).
`assert_one_yocto`; requires a record, `amount_staked > 0`, `amount > 0`;
then mutates a local copy (`amount_staked -= amount` — checked subtraction
with NO prior `amount <= amount_staked` guard, `time_staked = now`,
`reward += pending_reward`) which is never inserted back; issues
`ft_transfer(signer, amount)`; finally `total_staked -= amount`. -/
def unstake_token (c : Contract) (deposit : Nat) (signer : AccountId)
    (account : AccountId) (amount : Nat) (now : Int) :
    Except PanicKind (Contract × List Effect) :=
  if deposit = 1 then
    match lookup c.stake_info account with
    | none => .error (.require "Stake: You didn't stake any tokens!")
    | some si =>
      if si.amount_staked > 0 then
        if amount > 0 then
          match checkedSub si.amount_staked amount with
          | .error e => .error e
          | .ok _ =>
            match pending_reward c account now with
            | .error e => .error e
            | .ok pr =>
              match checkedAdd si.reward pr with
              | .error e => .error e
              | .ok _ =>
                match checkedSub c.total_staked amount with
                | .error e => .error e
                | .ok staked =>
                  .ok ({ c with total_staked := staked },
                       [.ftTransfer signer amount])
        else .error (.require "Stake: Invalid amount")
      else .error (.require "Stake: You staked less token than amount")
  else .error (.require ONE_YOCTO_MSG)

/-- `pub fn claim_reward(&mut self, _account_id: AccountId)`
(src/lib.rs:137-155).  `assert_one_yocto`; requires a record; computes the
pending reward, requires it positive, issues `ft_transfer(signer, reward)`;
the resets `time_staked = now`, `reward = 0` happen on a local copy that is
never inserted back, so the persisted contract state is unchanged. -/
def claim_reward (c : Contract) (deposit : Nat) (signer : AccountId)
    (account : AccountId) (now : Int) :
    Except PanicKind (Contract × List Effect) :=
  if deposit = 1 then
    match lookup c.stake_info account with
    | none => .error (.require "Stake: You didn't stake any tokens!")
    | some _si =>
      match pending_reward c account now with
      | .error e => .error e
      | .ok reward =>
        if reward > 0 then
          .ok (c, [.ftTransfer signer reward])
        else .error (.require "Stake: You have no reward yet!")
  else .error (.require ONE_YOCTO_MSG)

/-- `#[private] #[payable] pub fn update_apr(&mut self, ...)`
(src/lib.rs:178-213).  The `#[private]` wrapper requires the predecessor to
be the contract itself; then `assert_one_yocto`; requires a record; settles
`reward = pending_reward(...)` and `time_staked = now` on a local copy; then
naive unsigned `apr`/`votes` arithmetic per vote level (traps on
underflow/overflow).  The copy is never inserted back. -/
def update_apr (c : Contract) (deposit : Nat) (pred cur : AccountId)
    (advisor : AccountId) (learner_vote : Nat) (now : Int) :
    Except PanicKind (Contract × List Effect) :=
  if pred = cur then
    if deposit = 1 then
      match lookup c.stake_info advisor with
      | none => .error (.require "Stake: Advisor not stake any tokens!")
      | some si =>
        match pending_reward c advisor now with
        | .error e => .error e
        | .ok _r =>
          match learner_vote with
          | 1 =>
            match checkedSub si.apr (POINT_ONE_TOKEN * 2) with
            | .error e => .error e
            | .ok _ =>
              match checkedSub si.votes 2 with
              | .error e => .error e
              | .ok _ => .ok (c, [])
          | 2 =>
            match checkedSub si.apr POINT_ONE_TOKEN with
            | .error e => .error e
            | .ok _ =>
              match checkedSub si.votes 1 with
              | .error e => .error e
              | .ok _ => .ok (c, [])
          | 3 => .ok (c, [])
          | 4 =>
            match checkedAdd si.apr POINT_ONE_TOKEN with
            | .error e => .error e
            | .ok _ =>
              match checkedAddU8 si.votes 1 with
              | .error e => .error e
              | .ok _ => .ok (c, [])
          | 5 =>
            match checkedAdd si.apr (POINT_ONE_TOKEN * 2) with
            | .error e => .error e
            | .ok _ =>
              match checkedAddU8 si.votes 2 with
              | .error e => .error e
              | .ok _ => .ok (c, [])
          | _ => .error (.require "Stake: Invalid vote!")
    else .error (.require ONE_YOCTO_MSG)
  else .error (.require "Method update_apr is private")

/-- `SECONDS_PER_YEAR` as named by the spec. -/
def SECONDS_PER_YEAR : Nat := 31536000

/-- `APR_SCALE = 10^24` as named by the spec. -/
def APR_SCALE : Nat := 10 ^ 24

/-- The reward formula exactly as the spec's words state it (for comparison
with the source's `pending_reward`): `amount_staked * elapsed * apr /
(SECONDS_PER_YEAR * APR_SCALE) + settled_reward`. -/
def spec_pending_reward (si : StakeInfo) (now : Int) : Nat :=
  si.amount_staked * (now - si.time_staked).toNat * si.apr /
    (SECONDS_PER_YEAR * APR_SCALE) + si.reward

/-- Sum of `amount_staked` over all stored records. -/
def sumStaked : List (AccountId × StakeInfo) → Nat
  | [] => 0
  | (_, si) :: rest => si.amount_staked + sumStaked rest

lemma i64AsU128_of_nonneg (x : Int) (h0 : 0 ≤ x) (h : x < 2 ^ 128) :
    i64AsU128 x = x.toNat := by
  unfold i64AsU128
  rw [Int.emod_eq_of_lt h0 h]

lemma i64Sub_eq_ok {a b : Int} (h1 : -(2 ^ 63) ≤ a - b) (h2 : a - b < 2 ^ 63) :
    i64Sub a b = .ok (a - b) := by
  unfold i64Sub
  exact if_pos ⟨h1, h2⟩

lemma i64Sub_ok {a b v : Int} (h : i64Sub a b = .ok v) :
    v = a - b ∧ -(2 ^ 63) ≤ a - b ∧ a - b < 2 ^ 63 := by
  unfold i64Sub at h
  split at h
  next hc => cases h; exact ⟨rfl, hc⟩
  next => exact absurd h (by simp)

lemma checkedMul_ok {a b v : Nat} (h : checkedMul a b = .ok v) :
    v = a * b ∧ a * b < U128_SIZE := by
  unfold checkedMul at h
  split at h
  next hc => cases h; exact ⟨rfl, hc⟩
  next => exact absurd h (by simp)

lemma checkedAdd_ok {a b v : Nat} (h : checkedAdd a b = .ok v) :
    v = a + b ∧ a + b < U128_SIZE := by
  unfold checkedAdd at h
  split at h
  next hc => cases h; exact ⟨rfl, hc⟩
  next => exact absurd h (by simp)

/-- Success characterization of `pending_reward`: when the record exists and
every checked step succeeds, the result is the source's formula. -/
lemma pending_reward_eval (c : Contract) (a : AccountId) (si : StakeInfo)
    (now : Int)
    (hrec : lookup c.stake_info a = some si)
    (h1 : -(2 ^ 63) ≤ now - si.time_staked) (h2 : now - si.time_staked < 2 ^ 63)
    (hm1 : si.amount_staked * i64AsU128 (now - si.time_staked) < U128_SIZE)
    (hm2 : si.amount_staked * i64AsU128 (now - si.time_staked) * si.apr < U128_SIZE)
    (ha : si.amount_staked * i64AsU128 (now - si.time_staked) * si.apr /
          (31536000 * ONE_TOKEN * 100) + si.reward < U128_SIZE) :
    pending_reward c a now =
      .ok (si.amount_staked * i64AsU128 (now - si.time_staked) * si.apr /
           (31536000 * ONE_TOKEN * 100) + si.reward) := by
  simp only [pending_reward, hrec, i64Sub_eq_ok h1 h2, checkedMul, checkedAdd,
    if_pos hm1, if_pos hm2, if_pos ha]

/-- Inversion for `pending_reward`: a successful call yields exactly the
source's formula, and every checked step was in range. -/
lemma pending_reward_ok_elim (c : Contract) (a : AccountId) (si : StakeInfo)
    (now : Int) (r : Nat)
    (hrec : lookup c.stake_info a = some si)
    (h : pending_reward c a now = .ok r) :
    (-(2 ^ 63) ≤ now - si.time_staked ∧ now - si.time_staked < 2 ^ 63) ∧
    si.amount_staked * i64AsU128 (now - si.time_staked) < U128_SIZE ∧
    si.amount_staked * i64AsU128 (now - si.time_staked) * si.apr < U128_SIZE ∧
    r = si.amount_staked * i64AsU128 (now - si.time_staked) * si.apr /
        (31536000 * ONE_TOKEN * 100) + si.reward := by
  unfold pending_reward at h
  rw [hrec] at h
  dsimp only at h
  cases hx : i64Sub now si.time_staked with
  | error e => rw [hx] at h; simp at h
  | ok tl =>
    rw [hx] at h
    dsimp only at h
    obtain ⟨htl, hb1, hb2⟩ := i64Sub_ok hx
    subst htl
    cases hy : checkedMul si.amount_staked (i64AsU128 (now - si.time_staked)) with
    | error e => rw [hy] at h; simp at h
    | ok p1 =>
      rw [hy] at h
      dsimp only at h
      obtain ⟨hp1, hmb1⟩ := checkedMul_ok hy
      subst hp1
      cases hz : checkedMul (si.amount_staked * i64AsU128 (now - si.time_staked))
          si.apr with
      | error e => rw [hz] at h; simp at h
      | ok p2 =>
        rw [hz] at h
        dsimp only at h
        obtain ⟨hp2, hmb2⟩ := checkedMul_ok hz
        subst hp2
        obtain ⟨hr, _⟩ := checkedAdd_ok h
        exact ⟨⟨hb1, hb2⟩, hmb1, hmb2, hr⟩

/-- Concrete input for C1's counterexample: one staker `"a"` with 100 units
staked since time 0 at `apr = ONE_TOKEN` (i.e. 1 in the 10^24 fixed-point
scale). -/
def c1rec : StakeInfo := ⟨0, 100, 0, ONE_TOKEN, 0⟩

def c1cex : Contract := ⟨1, 100, [("a", c1rec)], "tok"⟩

/-- C1, counterexample: the claimed formula divides by
`SECONDS_PER_YEAR * APR_SCALE`, but the source divides by
`31536000 * ONE_TOKEN * 100`.  At 100 units staked for one year with
`apr = APR_SCALE`, the claimed formula yields 100 while `pending_reward`
returns 1. -/
theorem C1_counterexample :
    lookup c1cex.stake_info "a" = some c1rec ∧
    pending_reward c1cex "a" 31536000 = .ok 1 ∧
    spec_pending_reward c1rec 31536000 = 100 ∧ (1 : Nat) ≠ 100 := by
  refine ⟨by decide, by decide, by decide, by decide⟩

/-- C1 (amended): for every account with an existing record and every query
time `now ≥ time_settled` such that every checked arithmetic step is in
range, `pending_reward` returns
`amount_staked * (now - time_settled) * apr / (SECONDS_PER_YEAR * APR_SCALE * 100)
 + settled_reward` — the divisor carries an extra factor 100 because `apr`
is stored in percent scaled by 10^24 (`DEFAULT_APR = 5 * 10^24` is 5%); in
particular, 1,000,000 units held for exactly 31,536,000 seconds at 5% APR
yields 50,000 units (see the witness). -/
theorem C1_pending_reward_formula (c : Contract) (a : AccountId)
    (si : StakeInfo) (now : Int)
    (hrec : lookup c.stake_info a = some si)
    (h0 : si.time_staked ≤ now) (h63 : now - si.time_staked < 2 ^ 63)
    (hm1 : si.amount_staked * (now - si.time_staked).toNat < U128_SIZE)
    (hm2 : si.amount_staked * (now - si.time_staked).toNat * si.apr < U128_SIZE)
    (ha : si.amount_staked * (now - si.time_staked).toNat * si.apr /
          (SECONDS_PER_YEAR * APR_SCALE * 100) + si.reward < U128_SIZE) :
    pending_reward c a now =
      .ok (si.amount_staked * (now - si.time_staked).toNat * si.apr /
           (SECONDS_PER_YEAR * APR_SCALE * 100) + si.reward) := by
  have hnn : (0 : Int) ≤ now - si.time_staked := by linarith
  have hcast : i64AsU128 (now - si.time_staked) = (now - si.time_staked).toNat :=
    i64AsU128_of_nonneg _ hnn (lt_trans h63 (by norm_num))
  have hD : (31536000 : Nat) * ONE_TOKEN * 100 = SECONDS_PER_YEAR * APR_SCALE * 100 := by
    decide
  rw [pending_reward_eval c a si now hrec (by linarith) h63
    (by rw [hcast]; exact hm1) (by rw [hcast]; exact hm2)
    (by rw [hcast, hD]; exact ha), hcast, hD]

/-- Concrete scenario contract for C1's witness: account `"x"` staked
1,000,000 units at `DEFAULT_APR` (5%) since time 0. -/
def c1w : Contract := ⟨1, 1000000, [("x", ⟨0, 1000000, 0, DEFAULT_APR, 0⟩)], "tok"⟩

theorem C1_witness : pending_reward c1w "x" 31536000 = .ok 50000 := by
  have h := C1_pending_reward_formula c1w "x" ⟨0, 1000000, 0, DEFAULT_APR, 0⟩
    31536000 (by decide) (by decide) (by decide) (by decide) (by decide) (by decide)
  rw [h]
  decide

/-- C9: for a fixed record and any two query times `t1 ≤ t2` with
`t1 ≥ time_settled`, whenever `pending_reward` returns a value at both
times, the value at `t2` is greater than or equal to the value at `t1`. -/
theorem C9_pending_reward_monotone (c : Contract) (a : AccountId)
    (si : StakeInfo) (t1 t2 : Int) (r1 r2 : Nat)
    (hrec : lookup c.stake_info a = some si)
    (h1 : si.time_staked ≤ t1) (h12 : t1 ≤ t2)
    (e1 : pending_reward c a t1 = .ok r1)
    (e2 : pending_reward c a t2 = .ok r2) : r1 ≤ r2 := by
  obtain ⟨⟨_, hb1⟩, _, _, hr1⟩ := pending_reward_ok_elim c a si t1 r1 hrec e1
  obtain ⟨⟨_, hb2⟩, _, _, hr2⟩ := pending_reward_ok_elim c a si t2 r2 hrec e2
  have hnn1 : (0 : Int) ≤ t1 - si.time_staked := by linarith
  have hc1 : i64AsU128 (t1 - si.time_staked) = (t1 - si.time_staked).toNat :=
    i64AsU128_of_nonneg _ hnn1 (lt_trans hb1 (by norm_num))
  have hc2 : i64AsU128 (t2 - si.time_staked) = (t2 - si.time_staked).toNat :=
    i64AsU128_of_nonneg _ (by linarith) (lt_trans hb2 (by norm_num))
  have hle : (t1 - si.time_staked).toNat ≤ (t2 - si.time_staked).toNat :=
    Int.toNat_le_toNat (by linarith)
  subst hr1 hr2
  rw [hc1, hc2]
  exact Nat.add_le_add_right
    (Nat.div_le_div_right (Nat.mul_le_mul_right _ (Nat.mul_le_mul_left _ hle))) _

/-- Concrete record for C9's witness: 3,153,600,000 units at `DEFAULT_APR`
accrue 5 units per second. -/
def c9w : Contract := ⟨1, 3153600000, [("a", ⟨0, 3153600000, 0, DEFAULT_APR, 0⟩)], "tok"⟩

theorem C9_witness :
    pending_reward c9w "a" 1 = .ok 5 ∧ pending_reward c9w "a" 2 = .ok 10 ∧
    (5 : Nat) ≤ 10 :=
  ⟨by decide, by decide,
    C9_pending_reward_monotone c9w "a" ⟨0, 3153600000, 0, DEFAULT_APR, 0⟩ 1 2 5 10
      (by decide) (by decide) (by decide) (by decide) (by decide)⟩

/-- Failing input for C2: account `"a"` already holds a record with 100
staked (since time 0, reward 0, default APR). -/
def c2pre : Contract := ⟨1, 100, [("a", ⟨0, 100, 0, DEFAULT_APR, 0⟩)], "tok"⟩

/-- Post-state the source actually produces for C2's failing input: only
`total_staked` moved to 150; the stored record is byte-for-byte the old
one. -/
def c2post : Contract := ⟨1, 150, [("a", ⟨0, 100, 0, DEFAULT_APR, 0⟩)], "tok"⟩

/-- C2 (code bug evaluation): a successful `stake_token` of 50 on an account
that already staked 100 leaves the stored record completely unchanged —
`amount_staked` is still 100, `time_staked` still 0, `reward` still 0 —
because the source mutates a local copy from `LookupMap::get` and never
inserts it back; only `total_staked` is updated.  The claim's settle /
advance / add / persist behaviour does not happen. -/
theorem C2_stake_does_not_persist_record :
    stake_token c2pre 1 "spk" "al" "a" 50 10 =
      .ok (c2post, [.ftTransferCall "spk" 50 "spk_stake",
                    .ftResolveTransfer "al" "spk" 50]) ∧
    lookup c2post.stake_info "a" = some ⟨0, 100, 0, DEFAULT_APR, 0⟩ ∧
    c2post.total_staked = 150 :=
  ⟨by decide, by decide, by decide⟩

def c3c0 : Contract := ⟨0, 0, [], "tok"⟩

def c3c1 : Contract := ⟨1, 100, [("a", ⟨0, 100, 0, DEFAULT_APR, 0⟩)], "tok"⟩

def c3c2 : Contract := ⟨1, 200, [("a", ⟨0, 100, 0, DEFAULT_APR, 0⟩)], "tok"⟩

/-- C3 (code bug evaluation): two successive deposits of 100 by the same
account break the invariant `total_staked = Σ amount_staked`: the second
deposit adds to `total_staked` (now 200) but the stored record still says
`amount_staked = 100`, because the existing-record branch of `stake_token`
never persists the mutated copy. -/
theorem C3_total_staked_invariant_broken :
    stake_token c3c0 1 "spk" "al" "a" 100 0 =
      .ok (c3c1, [.ftTransferCall "spk" 100 "spk_stake",
                  .ftResolveTransfer "al" "spk" 100]) ∧
    stake_token c3c1 1 "spk" "al" "a" 100 0 =
      .ok (c3c2, [.ftTransferCall "spk" 100 "spk_stake",
                  .ftResolveTransfer "al" "spk" 100]) ∧
    c3c2.total_staked = 200 ∧ sumStaked c3c2.stake_info = 100 ∧
    c3c2.total_staked ≠ sumStaked c3c2.stake_info :=
  ⟨by decide, by decide, by decide, by decide, by decide⟩

/-- Failing input for C4: account `"z"` staked 100. -/
def c4c : Contract := ⟨1, 100, [("z", ⟨0, 100, 0, DEFAULT_APR, 0⟩)], "tok"⟩

/-- C4 (code bug evaluation): `unstake_token` has no
`amount ≤ amount_staked` guard (it only requires `amount_staked > 0` and
`amount > 0`), so withdrawing 150 from a stake of 100 reaches the unsigned
subtraction `amount_staked -= 150`, which underflows and aborts with an
arithmetic trap — not with an `InsufficientStake` error as the claim
states.  (The abort does leave the stored record unchanged.) -/
theorem C4_unstake_underflow_trap :
    unstake_token c4c 1 "al" "z" 150 0 = .error PanicKind.overflow :=
  by decide

/-- Failing input for C5: advisor `"adv"` holds a record with `apr = 0`. -/
def c5c : Contract := ⟨1, 100, [("adv", ⟨0, 100, 0, 0, 0⟩)], "tok"⟩

/-- C5 (code bug evaluation): `update_apr` with vote level 1 performs the
naive unsigned subtraction `apr -= POINT_ONE_TOKEN * 2`; at `apr = 0` this
underflows and aborts with an arithmetic trap instead of failing with
`RateFloorExceeded`.  (The abort does leave the record unchanged; note the
source also decrements the unsigned `votes` counter the same unchecked
way.) -/
theorem C5_update_apr_underflow_trap :
    update_apr c5c 1 "spk" "spk" "adv" 1 0 = .error PanicKind.overflow :=
  by decide

/-- Failing input for C6: a staker holding `2^127` units for 4 seconds. -/
def c6c : Contract := ⟨1, 2 ^ 127, [("w", ⟨0, 2 ^ 127, 0, DEFAULT_APR, 0⟩)], "tok"⟩

/-- C6 (code bug evaluation): the reward computation uses plain unchecked
`u128` multiplication; at `amount_staked = 2^127` and `elapsed = 4` the
intermediate product `amount_staked * elapsed` is `2^129`, which does not
fit in 128 bits, and the call aborts with an arithmetic trap
(`PanicKind.overflow` models the Rust overflow panic, not a typed
`ArithmeticOverflow` contract error as the claim requires). -/
theorem C6_pending_reward_overflow_trap :
    pending_reward c6c "w" 4 = .error PanicKind.overflow :=
  by decide

/-- Failing input for C7: account `"a"` staked 3,153,600,000 units at
`DEFAULT_APR` one second ago, so its pending reward is 5. -/
def c7c : Contract := ⟨1, 3153600000, [("a", ⟨0, 3153600000, 0, DEFAULT_APR, 0⟩)], "tok"⟩

/-- C7 (code bug evaluation): a successful `claim_reward` returns the
contract state completely unchanged (the resets `reward = 0`,
`time_staked = now` happen on a local copy that is never inserted back), so
an immediately repeated claim at the same time is the very same call: it
succeeds again and pays the 5-unit reward a second time, instead of
failing with `NoReward` as the claim states. -/
theorem C7_repeated_claim_pays_again :
    claim_reward c7c 1 "al" "a" 1 = .ok (c7c, [.ftTransfer "al" 5]) ∧
    claim_reward c7c 1 "al" "a" 1 ≠
      .error (.require "Stake: You have no reward yet!") :=
  ⟨by decide, by decide⟩

def c8cex : Contract := ⟨0, 0, [], "tok"⟩

/-- C8, counterexample: a successful first-time deposit of 100 by
`"alice"` issues two outbound requests to the token ledger — an
`ft_transfer_call` and a chained `ft_resolve_transfer` — contradicting the
claim that `stake_token` issues no outbound transfer request. -/
theorem C8_counterexample :
    stake_token c8cex 1 "spk" "alice" "alice" 100 0 =
      .ok (⟨1, 100, [("alice", ⟨0, 100, 0, DEFAULT_APR, 0⟩)], "tok"⟩,
           [.ftTransferCall "spk" 100 "spk_stake",
            .ftResolveTransfer "alice" "spk" 100]) ∧
    [Effect.ftTransferCall "spk" 100 "spk_stake",
     Effect.ftResolveTransfer "alice" "spk" 100] ≠ ([] : List Effect) :=
  ⟨by decide, by decide⟩

/-- C8 (amended): every successful `stake_token` issues exactly one
outbound `ft_transfer_call` (to the contract's own account, for the staked
amount, with message `"spk_stake"`) chained with one `ft_resolve_transfer`;
its state effects are confined to the ledger's own state. -/
theorem C8_stake_effects (c : Contract) (cur signer account : AccountId)
    (amount : Nat) (now : Int) (c' : Contract) (effs : List Effect)
    (h : stake_token c 1 cur signer account amount now = .ok (c', effs)) :
    effs = [Effect.ftTransferCall cur amount "spk_stake",
            Effect.ftResolveTransfer signer cur amount] := by
  unfold stake_token at h
  rw [if_pos rfl] at h
  split at h
  · split at h
    · split at h
      · simp at h
      · split at h
        · simp at h
        · split at h
          · simp at h
          · split at h
            · simp at h
            · injection h with h1
              injection h1 with _ h2
              exact h2.symm
    · split at h
      · simp at h
      · split at h
        · simp at h
        · injection h with h1
          injection h1 with _ h2
          exact h2.symm
  · simp at h

theorem C8_witness :
    [Effect.ftTransferCall "spk" 100 "spk_stake",
     Effect.ftResolveTransfer "alice" "spk" 100] =
    [Effect.ftTransferCall "spk" 100 "spk_stake",
     Effect.ftResolveTransfer "alice" "spk" 100] :=
  C8_stake_effects c8cex "spk" "alice" "alice" 100 0
    ⟨1, 100, [("alice", ⟨0, 100, 0, DEFAULT_APR, 0⟩)], "tok"⟩
    [Effect.ftTransferCall "spk" 100 "spk_stake",
     Effect.ftResolveTransfer "alice" "spk" 100] (by decide)

/-- C10: every state-mutating entry point (`stake_token`, `unstake_token`,
`claim_reward`, `update_apr` — the latter additionally `#[private]`, here
instantiated with predecessor = contract account) checks
`assert_one_yocto` before anything else: with any attached deposit other
than exactly one yoctoNEAR it aborts with the one-yocto panic and produces
no state change (an `Except.error` carries no successor state).  The
read-only queries `pending_reward` and `get_staked_amount` take no attached
deposit at all. -/
theorem C10_one_yocto_required (c : Contract) (d : Nat) (hd : d ≠ 1)
    (cur signer account : AccountId) (amount vote : Nat) (now : Int) :
    stake_token c d cur signer account amount now =
      .error (.require ONE_YOCTO_MSG) ∧
    unstake_token c d signer account amount now =
      .error (.require ONE_YOCTO_MSG) ∧
    claim_reward c d signer account now = .error (.require ONE_YOCTO_MSG) ∧
    update_apr c d cur cur account vote now =
      .error (.require ONE_YOCTO_MSG) := by
  refine ⟨?_, ?_, ?_, ?_⟩
  · unfold stake_token; rw [if_neg hd]
  · unfold unstake_token; rw [if_neg hd]
  · unfold claim_reward; rw [if_neg hd]
  · unfold update_apr; rw [if_pos rfl, if_neg hd]

def c10w : Contract := ⟨0, 0, [], "tok"⟩

theorem C10_witness :
    stake_token c10w 0 "spk" "al" "a" 5 7 = .error (.require ONE_YOCTO_MSG) ∧
    unstake_token c10w 0 "al" "a" 5 7 = .error (.require ONE_YOCTO_MSG) ∧
    claim_reward c10w 0 "al" "a" 7 = .error (.require ONE_YOCTO_MSG) ∧
    update_apr c10w 0 "spk" "spk" "a" 1 7 = .error (.require ONE_YOCTO_MSG) :=
  C10_one_yocto_required c10w 0 (by decide) "spk" "al" "a" 5 1 7

end SpkStake
